import Mathlib

/-!
Verification of the two-road intelligent traffic controller
(`IntelligentTrafficSystem.ino`).

The sketch is embedded shallowly:
* hardware reads (ultrasonic echo durations, emergency-button levels,
  `millis()`) become explicit per-tick inputs;
* the global mutable variables become the fields of `SysState`;
* one iteration of `loop()` becomes the pure step function `tick`;
* 32-bit float arithmetic in `computeGreenMs` is modelled with exact
  rationals (`ℚ`); the final `(unsigned long)` cast truncates, modelled
  with `Nat.floor`. This is an idealization: no theorem below asserts an
  exact value of the float computation except where every intermediate is
  exactly representable in float32 (the clamp endpoints, and the whole
  evaluation at zero counts), and no theorem transfers a strict `ℚ`
  inequality to the floats (float rounding can, for large equal counts,
  land the result on a value the exact ratio only approaches);
* `millis()` timestamps are a monotone clock (`ℕ`). A `loop()` iteration
  reads `millis()` several times; the reads on the quiet paths differ by
  at most the work between two statements and are collapsed into the
  tick's single `now`. The one read that must NOT be collapsed is the
  `emerStart = millis()` stamp inside `triggerEmergency`: it happens after
  the button path's `delay(10)`, so on a trigger tick it is strictly later
  than the loop-top `now`. It is modelled by the separate per-tick inputs
  `trigTimeA`/`trigTimeB`. The `STATE_EMERGENCY` deadline test then
  computes `now - emerStart` with the STALE `now` in 32-bit unsigned
  arithmetic, which wraps to ≈ 2³² − (emerStart − now) whenever
  `now < emerStart` — at or above `EMERGENCY_GREEN_MS` for every realistic
  in-tick delay — so a freshly triggered emergency is cancelled again in
  the very same tick. The model captures this with the explicit
  `now < emerStart` disjunct in `emergencyStep`; the lemma
  `usub32_expired_iff` proves this disjunction equivalent to the machine's
  wrapped comparison throughout the modelled horizon.
-/

namespace TrafficSystem

/-- `CYCLE_TOTAL_MS`: length of one counting window (120 s). -/
def CYCLE_TOTAL_MS : ℕ := 120000

/-- `SENSOR_POLL_MS`: minimum interval between ultrasonic polls. -/
def SENSOR_POLL_MS : ℕ := 60

/-- `EMERGENCY_GREEN_MS`: emergency green time (10 s). -/
def EMERGENCY_GREEN_MS : ℕ := 10000

/-- `DIST_THRESHOLD_CM`: distance below which we consider "presence". -/
def DIST_THRESHOLD_CM : ℤ := 60

/-- `PRESENCE_DEBOUNCE_MS`: stability required before accepting presence. -/
def PRESENCE_DEBOUNCE_MS : ℕ := 80

/-- `ABSENCE_DEBOUNCE_MS`: stability required before counting a pass. -/
def ABSENCE_DEBOUNCE_MS : ℕ := 120

/-- The `LightPhase` enum of the sketch. -/
inductive LightPhase
  | PHASE_RED
  | PHASE_YELLOW
  | PHASE_GREEN
  deriving DecidableEq

/-- The `SystemState` enum of the sketch. -/
inductive SystemState
  | STATE_COUNTING
  | STATE_EXECUTING_TIMES
  | STATE_EMERGENCY
  deriving DecidableEq

/-- The per-sensor `SensorState` struct, with the sketch's field defaults. -/
structure SensorState where
  present : Bool := false
  lastChange : ℕ := 0
  waitingForAbsence : Bool := false
  deriving DecidableEq

/-- `measureDistanceCM`: the conversion applied to the raw `pulseIn` echo
duration. A zero duration is the timeout case and yields −1; otherwise the
distance is `duration / 58` (both operands non-negative, so C `long`
division is `ℤ` division). -/
def measureDistanceCM (duration : ℕ) : ℤ :=
  if duration = 0 then -1 else (duration : ℤ) / 58

/-- The presence test inlined in `updateSensor`:
`d > 0 && d <= DIST_THRESHOLD_CM`. -/
def vehiclePresent (d : ℤ) : Bool :=
  decide (0 < d ∧ d ≤ DIST_THRESHOLD_CM)

/-- `updateSensor`: the per-sensor debounce state machine. The measured
distance `d` is passed in (the source measures it inside the function via
`measureDistanceCM`); `now` is the tick's `millis()`; the road's pass
counter rides along as the second component. -/
def updateSensor (s : SensorState) (d : ℤ) (now : ℕ) (counter : ℕ) :
    SensorState × ℕ :=
  let isPresent := vehiclePresent d
  if isPresent ≠ s.present then
    if now - s.lastChange ≥
        (if isPresent then PRESENCE_DEBOUNCE_MS else ABSENCE_DEBOUNCE_MS) then
      let s' : SensorState := { s with present := isPresent, lastChange := now }
      if isPresent then
        ({ s' with waitingForAbsence := true }, counter)
      else
        if s.waitingForAbsence then
          ({ s' with waitingForAbsence := false }, counter + 1)
        else
          (s', counter)
    else (s, counter)
  else (s, counter)

/-- Folding `updateSensor` over a list of (distance, time) samples. -/
def runSensor (s : SensorState) (counter : ℕ) (samples : List (ℤ × ℕ)) :
    SensorState × ℕ :=
  samples.foldl (fun p sample => updateSensor p.1 sample.1 sample.2 p.2)
    (s, counter)

/-- The raw (unclamped) green time for road A in seconds:
`ratio * 60 + 30` with `ratio = x / (x + y + 0.01)` (the guarded `0.5`
branch fires only when the denominator is not positive, which never
happens). The source computes this in 32-bit float; here it is exact `ℚ`.
Caution: for large equal counts the float ratio rounds up to exactly 0.5
while the exact ratio stays strictly below it, so strict inequalities
proved of this definition do not transfer to the program; only
float-exact evaluations do (notably `x = y = 0`, where `0/0.01 = 0` and
`0*60+30 = 30` are exact in float32 as well). -/
def rawGreenSec (x y : ℕ) : ℚ :=
  let denom : ℚ := (x : ℚ) + (y : ℚ) + 1 / 100
  let ratio : ℚ := if 0 < denom then (x : ℚ) / denom else 1 / 2
  ratio * 60 + 30

/-- First clamp statement of `computeGreenMs`: `if (tsec < 30) tsec = 30`. -/
def clampLow (t : ℚ) : ℚ :=
  if t < 30 then 30 else t

/-- Second clamp statement of `computeGreenMs`: `if (tsec > 90) tsec = 90`. -/
def clampSec (t : ℚ) : ℚ :=
  if 90 < clampLow t then 90 else clampLow t

/-- `computeGreenMs`: clamped green time for road A in milliseconds; the
`(unsigned long)` cast of a non-negative float truncates, i.e. floors.
Exact-`ℚ` model of the float source (see `rawGreenSec`): the interval
bounds proved below hold of the float program too because the clamp
endpoints 30 and 90 and the factor 1000 are exactly representable and
float rounding is monotone, but exact values are only claimed where the
whole float evaluation is exact (zero counts). -/
def computeGreenMs (x y : ℕ) : ℕ :=
  ⌊clampSec (rawGreenSec x y) * 1000⌋₊

/-- All global mutable variables of the sketch, including the LED levels
last written for each road (`setRoadLightsA` / `setRoadLightsB`). -/
structure SysState where
  lastSensorPoll : ℕ
  cycleStartTime : ℕ
  countA : ℕ
  countB : ℕ
  sA : SensorState
  sB : SensorState
  sysState : SystemState
  execPhaseStart : ℕ
  greenDurationA : ℕ
  greenDurationB : ℕ
  executingAfirst : Bool
  emerActive : Bool
  emerStart : ℕ
  emerRoad : ℕ
  lightsA : LightPhase
  lightsB : LightPhase
  deriving DecidableEq

/-- `setRoadLightsA`: drive road A's three LEDs to phase `p`. -/
def setRoadLightsA (st : SysState) (p : LightPhase) : SysState :=
  { st with lightsA := p }

/-- `setRoadLightsB`: drive road B's three LEDs to phase `p`. -/
def setRoadLightsB (st : SysState) (p : LightPhase) : SysState :=
  { st with lightsB := p }

/-- `triggerEmergency`: record the emergency (road 1 = A, 2 = B), enter
`STATE_EMERGENCY`, and force the requested road Green, the other Red. -/
def triggerEmergency (st : SysState) (road : ℕ) (now : ℕ) : SysState :=
  let st' := { st with
    emerActive := true
    emerStart := now
    emerRoad := road
    sysState := SystemState.STATE_EMERGENCY }
  if road = 1 then
    setRoadLightsB (setRoadLightsA st' LightPhase.PHASE_GREEN) LightPhase.PHASE_RED
  else
    setRoadLightsB (setRoadLightsA st' LightPhase.PHASE_RED) LightPhase.PHASE_GREEN

/-- `startExecutionPhase`: compute the green split from the window's
counts, pick which road goes first (`countA >= countB` chooses A), enter
`STATE_EXECUTING_TIMES`, and set the first segment's lights. -/
def startExecutionPhase (st : SysState) (now : ℕ) : SysState :=
  let gA := computeGreenMs st.countA st.countB
  let st' := { st with
    greenDurationA := gA
    greenDurationB := CYCLE_TOTAL_MS - gA
    executingAfirst := decide (st.countB ≤ st.countA)
    sysState := SystemState.STATE_EXECUTING_TIMES
    execPhaseStart := now }
  if st'.executingAfirst then
    setRoadLightsB (setRoadLightsA st' LightPhase.PHASE_GREEN) LightPhase.PHASE_RED
  else
    setRoadLightsB (setRoadLightsA st' LightPhase.PHASE_RED) LightPhase.PHASE_GREEN

/-- `resetCountingCycle`: zero both counters, reset both sensor state
machines to their defaults, restart the window clock, and return to
`STATE_COUNTING`. -/
def resetCountingCycle (st : SysState) (now : ℕ) : SysState :=
  { st with
    countA := 0
    countB := 0
    sA := {}
    sB := {}
    cycleStartTime := now
    sysState := SystemState.STATE_COUNTING
    lastSensorPoll := 0 }

/-- The externally sampled inputs of one `loop()` iteration: the loop-top
`millis()` (`now`), the two emergency-button levels (`true` = pressed,
i.e. the pin reads LOW and the 10 ms confirming re-read still reads LOW),
the `millis()` values `triggerEmergency` would stamp for each road's
trigger this tick (these reads happen after the button path's
`delay(10)`, so on a trigger tick they are strictly later than `now` —
theorems about trigger ticks carry that as the hypothesis
`now < trigTime`), and the two raw ultrasonic echo durations
(0 = no echo / timeout). -/
structure TickInput where
  now : ℕ
  emerButtonA : Bool
  emerButtonB : Bool
  trigTimeA : ℕ
  trigTimeB : ℕ
  echoDurA : ℕ
  echoDurB : ℕ
  deriving DecidableEq

/-- The `STATE_COUNTING` case of the `switch` in `loop()`: poll the two
sensors when `SENSOR_POLL_MS` has elapsed since the last poll, then start
the execution phase when the 120 s window has elapsed. -/
def countingStep (st : SysState) (inp : TickInput) : SysState :=
  let now := inp.now
  let st' :=
    if now - st.lastSensorPoll ≥ SENSOR_POLL_MS then
      let ra := updateSensor st.sA (measureDistanceCM inp.echoDurA) now st.countA
      let rb := updateSensor st.sB (measureDistanceCM inp.echoDurB) now st.countB
      { st with
        lastSensorPoll := now
        sA := ra.1
        countA := ra.2
        sB := rb.1
        countB := rb.2 }
    else st
  if now - st'.cycleStartTime ≥ CYCLE_TOTAL_MS then
    startExecutionPhase st' now
  else st'

/-- The `STATE_EXECUTING_TIMES` case of the `switch` in `loop()`: the
four-segment light sequence driven by the elapsed time since the plan
started (the first segment writes nothing — its lights were set by
`startExecutionPhase`), ending in `resetCountingCycle`. -/
def execStep (st : SysState) (now : ℕ) : SysState :=
  let elapsed := now - st.execPhaseStart
  if st.executingAfirst then
    if elapsed < st.greenDurationA then
      st
    else if elapsed < st.greenDurationA + 3000 then
      setRoadLightsB (setRoadLightsA st LightPhase.PHASE_YELLOW) LightPhase.PHASE_RED
    else if elapsed < st.greenDurationA + 3000 + st.greenDurationB then
      setRoadLightsB (setRoadLightsA st LightPhase.PHASE_RED) LightPhase.PHASE_GREEN
    else if elapsed < st.greenDurationA + 3000 + st.greenDurationB + 3000 then
      setRoadLightsB (setRoadLightsA st LightPhase.PHASE_RED) LightPhase.PHASE_YELLOW
    else
      resetCountingCycle st now
  else
    if elapsed < st.greenDurationB then
      st
    else if elapsed < st.greenDurationB + 3000 then
      setRoadLightsB (setRoadLightsA st LightPhase.PHASE_RED) LightPhase.PHASE_YELLOW
    else if elapsed < st.greenDurationB + 3000 + st.greenDurationA then
      setRoadLightsB (setRoadLightsA st LightPhase.PHASE_GREEN) LightPhase.PHASE_RED
    else if elapsed < st.greenDurationB + 3000 + st.greenDurationA + 3000 then
      setRoadLightsB (setRoadLightsA st LightPhase.PHASE_YELLOW) LightPhase.PHASE_RED
    else
      resetCountingCycle st now

/-- 32-bit unsigned subtraction `a - b` as the AVR `unsigned long`
computes it, for machine values `a, b < 2³²`. -/
def usub32 (a b : ℕ) : ℕ :=
  (a % 4294967296 + (4294967296 - b % 4294967296)) % 4294967296

/-- The `STATE_EMERGENCY` case of the `switch` in `loop()`. The deadline
test is the source's `now - emerStart >= EMERGENCY_GREEN_MS`, where `now`
is the STALE loop-top read and the subtraction is 32-bit unsigned: when
`emerStart` was stamped later in the same tick (after the button path's
`delay(10)`), `now < emerStart` and the machine difference wraps to
≈ 2³² − (emerStart − now) ≥ `EMERGENCY_GREEN_MS`, so the test passes and
the just-triggered emergency is cancelled in the very same tick. The
explicit `now < st.emerStart` disjunct encodes exactly that wrap;
`usub32_expired_iff` below proves the encoding equivalent to the machine
comparison throughout the modelled horizon. `fresh` is the `millis()`
value `resetCountingCycle` reads when the branch fires (post-delay on a
trigger tick, the tick's `now` on a quiet tick). -/
def emergencyStep (st : SysState) (now fresh : ℕ) : SysState :=
  if now < st.emerStart ∨ now - st.emerStart ≥ EMERGENCY_GREEN_MS then
    resetCountingCycle { st with emerActive := false, emerRoad := 0 } fresh
  else st

/-- One iteration of `loop()`: the button checks run first
(unconditionally, in A-then-B order; a confirmed press stamps the
post-delay time `trigTimeA`/`trigTimeB`), then the `switch` dispatches on
the — possibly just updated — `sysState`, its comparisons using the stale
loop-top `now`. The clock value a firing `STATE_EMERGENCY` reset reads is
the latest read of the tick: the last trigger stamp if a button was
pressed this tick, else `now`. -/
def tick (st₀ : SysState) (inp : TickInput) : SysState :=
  let now := inp.now
  let st₁ := if inp.emerButtonA then triggerEmergency st₀ 1 inp.trigTimeA else st₀
  let st := if inp.emerButtonB then triggerEmergency st₁ 2 inp.trigTimeB else st₁
  let fresh := if inp.emerButtonB then inp.trigTimeB
    else if inp.emerButtonA then inp.trigTimeA else now
  match st.sysState with
  | SystemState.STATE_COUNTING => countingStep st inp
  | SystemState.STATE_EXECUTING_TIMES => execStep st now
  | SystemState.STATE_EMERGENCY => emergencyStep st now fresh

/-- Folding `tick` over a list of per-tick inputs. -/
def runTicks (st : SysState) (inps : List TickInput) : SysState :=
  inps.foldl tick st

/-- The state after `setup()`: the variables' initial values, both roads
Red, and a fresh counting cycle started at time 0. -/
def initState : SysState :=
  { lastSensorPoll := 0
    cycleStartTime := 0
    countA := 0
    countB := 0
    sA := {}
    sB := {}
    sysState := SystemState.STATE_COUNTING
    execPhaseStart := 0
    greenDurationA := 60000
    greenDurationB := 60000
    executingAfirst := true
    emerActive := false
    emerStart := 0
    emerRoad := 0
    lightsA := LightPhase.PHASE_RED
    lightsB := LightPhase.PHASE_RED }

/-! ## Helper lemmas about the allocation formula -/

/-- The two clamp statements leave a value in `[30, 90]`. -/
lemma clampSec_mem (t : ℚ) : 30 ≤ clampSec t ∧ clampSec t ≤ 90 := by
  unfold clampSec clampLow
  split_ifs with h1 h2 h3 <;> constructor <;> linarith

/-- `computeGreenMs` always lands in `[30000, 90000]` milliseconds. -/
lemma computeGreenMs_mem (x y : ℕ) :
    30000 ≤ computeGreenMs x y ∧ computeGreenMs x y ≤ 90000 := by
  obtain ⟨h1, h2⟩ := clampSec_mem (rawGreenSec x y)
  unfold computeGreenMs
  constructor
  · exact Nat.le_floor (by push_cast; linarith)
  · have h0 : (0 : ℚ) ≤ clampSec (rawGreenSec x y) * 1000 := by linarith
    have hfl : (↑⌊clampSec (rawGreenSec x y) * 1000⌋₊ : ℚ) ≤ 90000 :=
      (Nat.floor_le h0).trans (by linarith)
    exact_mod_cast hfl

/-! ## Helper lemmas about `startExecutionPhase` -/

/-- The plan's A-duration is `computeGreenMs` of the window's counts. -/
lemma startExec_greenA (st : SysState) (now : ℕ) :
    (startExecutionPhase st now).greenDurationA =
      computeGreenMs st.countA st.countB := by
  simp only [startExecutionPhase, setRoadLightsA, setRoadLightsB]
  split <;> rfl

/-- The plan's B-duration is the remainder of the 120 s window. -/
lemma startExec_greenB (st : SysState) (now : ℕ) :
    (startExecutionPhase st now).greenDurationB =
      CYCLE_TOTAL_MS - computeGreenMs st.countA st.countB := by
  simp only [startExecutionPhase, setRoadLightsA, setRoadLightsB]
  split <;> rfl

/-- Starting the execution phase enters `STATE_EXECUTING_TIMES`. -/
lemma startExec_sysState (st : SysState) (now : ℕ) :
    (startExecutionPhase st now).sysState =
      SystemState.STATE_EXECUTING_TIMES := by
  simp only [startExecutionPhase, setRoadLightsA, setRoadLightsB]
  split <;> rfl

/-- The road with the larger (or, for A, equal) count goes first. -/
lemma startExec_first (st : SysState) (now : ℕ) :
    (startExecutionPhase st now).executingAfirst =
      decide (st.countB ≤ st.countA) := by
  simp only [startExecutionPhase, setRoadLightsA, setRoadLightsB]
  split <;> rfl

/-- The first segment's lights: the first road Green, the other Red. -/
lemma startExec_lights (st : SysState) (now : ℕ) :
    (st.countB ≤ st.countA →
      (startExecutionPhase st now).lightsA = LightPhase.PHASE_GREEN ∧
      (startExecutionPhase st now).lightsB = LightPhase.PHASE_RED) ∧
    (st.countA < st.countB →
      (startExecutionPhase st now).lightsA = LightPhase.PHASE_RED ∧
      (startExecutionPhase st now).lightsB = LightPhase.PHASE_GREEN) := by
  constructor <;> intro h
  · simp [startExecutionPhase, setRoadLightsA, setRoadLightsB, h]
  · have h' : ¬ (st.countB ≤ st.countA) := Nat.not_le.mpr h
    simp [startExecutionPhase, setRoadLightsA, setRoadLightsB, h']

/-! ## C1 and C2: the allocation formula -/

/-- C1: for every pair of counts, the plan built at the end of a counting
window has `greenDurationA ∈ [30000, 90000]` ms and
`greenDurationA + greenDurationB = 120000` ms exactly (B is defined as the
remainder, so the pair sums to the window even after clamping). -/
theorem c1_formula_clamp (st : SysState) (now : ℕ) :
    30000 ≤ (startExecutionPhase st now).greenDurationA ∧
    (startExecutionPhase st now).greenDurationA ≤ 90000 ∧
    (startExecutionPhase st now).greenDurationA +
      (startExecutionPhase st now).greenDurationB = 120000 := by
  obtain ⟨h1, h2⟩ := computeGreenMs_mem st.countA st.countB
  rw [startExec_greenA, startExec_greenB]
  unfold CYCLE_TOTAL_MS
  omega

/-- At zero counts the ratio is `0/(0+0+0.01) = 0` (not `0.5`), so the raw
green time is exactly 30 s; this evaluation is exact in float arithmetic
too (every intermediate value is representable). -/
lemma computeGreenMs_zero : computeGreenMs 0 0 = 30000 := by
  have h : clampSec (rawGreenSec 0 0) = 30 := by
    norm_num [rawGreenSec, clampSec, clampLow]
  unfold computeGreenMs
  rw [h]
  norm_num

/-- C2 counterexample: at equal counts `n = 0` the plan is a 30 s / 90 s
split, not the claimed 60 s / 60 s — the ε term drives the ratio to 0, not
to 0.5, when both counts are zero. -/
theorem c2_counterexample :
    computeGreenMs 0 0 = 30000 ∧
    (startExecutionPhase initState 0).greenDurationA ≠ 60000 ∧
    (startExecutionPhase initState 0).greenDurationA = 30000 ∧
    (startExecutionPhase initState 0).greenDurationB = 90000 := by
  have hA := startExec_greenA initState 0
  have hB := startExec_greenB initState 0
  have h0 : initState.countA = 0 := rfl
  have h0' : initState.countB = 0 := rfl
  rw [h0, h0', computeGreenMs_zero] at hA hB
  exact ⟨computeGreenMs_zero, by rw [hA]; omega, hA,
    by rw [hB]; norm_num [CYCLE_TOTAL_MS]⟩

/-- C2 amended: the claimed 60 s / 60 s symmetry at equal counts fails at
zero counts, where the ε term biases the ratio to 0 — not 0.5: with both
counts zero the plan is exactly durationA = 30 s and durationB = 90 s.
(This evaluation is exact in the source's float arithmetic as well: every
intermediate value — 0/0.01 = 0, 0·60+30 = 30, 30·1000 = 30000 — is
exactly representable in float32.) -/
theorem c2_zero_counts (st : SysState) (now : ℕ)
    (hA : st.countA = 0) (hB : st.countB = 0) :
    (startExecutionPhase st now).greenDurationA = 30000 ∧
    (startExecutionPhase st now).greenDurationB = 90000 := by
  rw [startExec_greenA, startExec_greenB, hA, hB, computeGreenMs_zero]
  norm_num [CYCLE_TOTAL_MS]

/-- Witness for `c2_zero_counts` at the initial state (counts 0, 0). -/
theorem c2_zero_counts_witness :
    (startExecutionPhase initState 0).greenDurationA = 30000 ∧
    (startExecutionPhase initState 0).greenDurationB = 90000 :=
  c2_zero_counts initState 0 rfl rfl

/-! ## Helper lemmas about `tick` -/

/-- With neither button pressed, a tick in `STATE_COUNTING` runs exactly
the counting case. -/
lemma tick_counting (st : SysState) (inp : TickInput)
    (hA : inp.emerButtonA = false) (hB : inp.emerButtonB = false)
    (hs : st.sysState = SystemState.STATE_COUNTING) :
    tick st inp = countingStep st inp := by
  simp [tick, hA, hB, hs]

/-- With neither button pressed, a tick in `STATE_EXECUTING_TIMES` runs
exactly the sequencer case. -/
lemma tick_exec (st : SysState) (inp : TickInput)
    (hA : inp.emerButtonA = false) (hB : inp.emerButtonB = false)
    (hs : st.sysState = SystemState.STATE_EXECUTING_TIMES) :
    tick st inp = execStep st inp.now := by
  simp [tick, hA, hB, hs]

/-- With neither button pressed, a tick in `STATE_EMERGENCY` runs exactly
the emergency case, whose reset clock is the tick's own time. -/
lemma tick_emergency (st : SysState) (inp : TickInput)
    (hA : inp.emerButtonA = false) (hB : inp.emerButtonB = false)
    (hs : st.sysState = SystemState.STATE_EMERGENCY) :
    tick st inp = emergencyStep st inp.now inp.now := by
  simp [tick, hA, hB, hs]

/-- A tick whose input has road B's button pressed runs road B's trigger
last (even if A's button was also pressed) and then the emergency case
with the stale loop-top `now` against B's later stamp. -/
lemma tick_pressedB (st : SysState) (inp : TickInput)
    (hB : inp.emerButtonB = true) :
    tick st inp =
      emergencyStep
        (triggerEmergency
          (if inp.emerButtonA then triggerEmergency st 1 inp.trigTimeA else st)
          2 inp.trigTimeB)
        inp.now inp.trigTimeB := by
  simp [tick, hB, triggerEmergency, setRoadLightsA, setRoadLightsB]

/-- A tick whose input has only road A's button pressed runs road A's
trigger and then the emergency case with the stale loop-top `now` against
A's later stamp. -/
lemma tick_pressedA (st : SysState) (inp : TickInput)
    (hA : inp.emerButtonA = true) (hB : inp.emerButtonB = false) :
    tick st inp =
      emergencyStep (triggerEmergency st 1 inp.trigTimeA) inp.now
        inp.trigTimeA := by
  simp [tick, hA, hB, triggerEmergency, setRoadLightsA, setRoadLightsB]

/-- Sanity check of the wrap encoding: for machine values (`< 2³²`) whose
backward gap is at most `2³² − EMERGENCY_GREEN_MS` (≈ 49.7 days — any
realistic in-tick delay), the machine's wrapped comparison
`usub32 now emerStart ≥ EMERGENCY_GREEN_MS` is exactly the disjunction
used in `emergencyStep`. -/
lemma usub32_expired_iff (now emerStart : ℕ)
    (hnow : now < 4294967296) (hst : emerStart < 4294967296)
    (hgap : emerStart - now ≤ 4294957296) :
    EMERGENCY_GREEN_MS ≤ usub32 now emerStart ↔
      (now < emerStart ∨ EMERGENCY_GREEN_MS ≤ now - emerStart) := by
  unfold usub32 EMERGENCY_GREEN_MS
  omega

/-- The emergency case never writes the lights (neither branch touches
them) and never changes the recorded `emerStart`. -/
lemma emergencyStep_keeps (st : SysState) (now fresh : ℕ) :
    (emergencyStep st now fresh).lightsA = st.lightsA ∧
    (emergencyStep st now fresh).lightsB = st.lightsB ∧
    (emergencyStep st now fresh).emerStart = st.emerStart := by
  unfold emergencyStep resetCountingCycle
  split <;> exact ⟨rfl, rfl, rfl⟩

/-- When `emerStart` was stamped later in the tick than the stale `now`
(a trigger tick), the wrapped deadline test fires and the emergency is
cancelled at once: flags cleared and a fresh counting cycle started. -/
lemma emergencyStep_trigger_cancel (st : SysState) (now fresh : ℕ)
    (h : now < st.emerStart) :
    emergencyStep st now fresh =
      resetCountingCycle { st with emerActive := false, emerRoad := 0 }
        fresh := by
  unfold emergencyStep
  rw [if_pos (Or.inl h)]

/-- What `triggerEmergency` does for road A. -/
lemma triggerEmergency_A (st : SysState) (now : ℕ) :
    triggerEmergency st 1 now = { st with
      emerActive := true
      emerStart := now
      emerRoad := 1
      sysState := SystemState.STATE_EMERGENCY
      lightsA := LightPhase.PHASE_GREEN
      lightsB := LightPhase.PHASE_RED } := by
  simp [triggerEmergency, setRoadLightsA, setRoadLightsB]

/-- What `triggerEmergency` does for road B. -/
lemma triggerEmergency_B (st : SysState) (now : ℕ) :
    triggerEmergency st 2 now = { st with
      emerActive := true
      emerStart := now
      emerRoad := 2
      sysState := SystemState.STATE_EMERGENCY
      lightsA := LightPhase.PHASE_RED
      lightsB := LightPhase.PHASE_GREEN } := by
  simp [triggerEmergency, setRoadLightsA, setRoadLightsB]

/-! ## C3: emergency preemption has absolute priority -/

/-- C3: on every tick, whatever the operating mode, the emergency signals
are checked before the state machine's own case runs, and an observed
signal forces the requested road's light Green and the other road's Red
within that same tick, overriding whatever lights the interrupted state
had set — the subsequent switch case never writes the lights again that
tick (the emergency case touches flags and counters only). If both
signals arrive on one tick, road B's trigger runs last and wins. (The
mode itself does not persist: the trigger self-cancels within the tick —
see C4/C10 — but the claim's forced lights do hold at tick end.) -/
theorem c3_emergency_priority (st : SysState) (inp : TickInput) :
    (inp.emerButtonA = true → inp.emerButtonB = false →
      (tick st inp).lightsA = LightPhase.PHASE_GREEN ∧
      (tick st inp).lightsB = LightPhase.PHASE_RED) ∧
    (inp.emerButtonB = true →
      (tick st inp).lightsA = LightPhase.PHASE_RED ∧
      (tick st inp).lightsB = LightPhase.PHASE_GREEN) := by
  constructor
  · intro hA hB
    rw [tick_pressedA st inp hA hB]
    obtain ⟨hl1, hl2, _⟩ :=
      emergencyStep_keeps (triggerEmergency st 1 inp.trigTimeA) inp.now
        inp.trigTimeA
    rw [hl1, hl2, triggerEmergency_A]
    exact ⟨rfl, rfl⟩
  · intro hB
    rw [tick_pressedB st inp hB]
    obtain ⟨hl1, hl2, _⟩ :=
      emergencyStep_keeps
        (triggerEmergency
          (if inp.emerButtonA then triggerEmergency st 1 inp.trigTimeA else st)
          2 inp.trigTimeB)
        inp.now inp.trigTimeB
    rw [hl1, hl2, triggerEmergency_B]
    exact ⟨rfl, rfl⟩

/-- Witness for `c3_emergency_priority`: mid-way through road B's green
segment of an executing plan (road B Green, road A Red), a signal for road
A flips the lights to A Green / B Red within the tick. -/
theorem c3_emergency_priority_witness :
    (tick { initState with
        sysState := SystemState.STATE_EXECUTING_TIMES
        executingAfirst := false
        execPhaseStart := 0
        lightsA := LightPhase.PHASE_RED
        lightsB := LightPhase.PHASE_GREEN }
      { now := 20000, emerButtonA := true, emerButtonB := false,
        trigTimeA := 20012, trigTimeB := 20012,
        echoDurA := 0, echoDurB := 0 }).lightsA = LightPhase.PHASE_GREEN ∧
    (tick { initState with
        sysState := SystemState.STATE_EXECUTING_TIMES
        executingAfirst := false
        execPhaseStart := 0
        lightsA := LightPhase.PHASE_RED
        lightsB := LightPhase.PHASE_GREEN }
      { now := 20000, emerButtonA := true, emerButtonB := false,
        trigTimeA := 20012, trigTimeB := 20012,
        echoDurA := 0, echoDurB := 0 }).lightsB = LightPhase.PHASE_RED :=
  (c3_emergency_priority _ _).1 rfl rfl

/-! ## C4: overlapping emergency requests -/

/-- C4 counterexample: with road A's emergency just triggered (mode
Emergency for road 1), road B's signal on the same tick is NOT ignored:
B's trigger runs while mode is Emergency for A and changes the lights to
B Green / A Red and the recorded stamp to B's (20, not A's 10). Across
ticks: a press for A at time 0 leaves A's green latched; a press for B at
time 1000 switches the lights to B — again not ignored. -/
theorem c4_counterexample :
    (tick initState
      { now := 0, emerButtonA := true, emerButtonB := true,
        trigTimeA := 10, trigTimeB := 20,
        echoDurA := 0, echoDurB := 0 }).lightsA = LightPhase.PHASE_RED ∧
    (tick initState
      { now := 0, emerButtonA := true, emerButtonB := true,
        trigTimeA := 10, trigTimeB := 20,
        echoDurA := 0, echoDurB := 0 }).lightsB = LightPhase.PHASE_GREEN ∧
    (tick initState
      { now := 0, emerButtonA := true, emerButtonB := true,
        trigTimeA := 10, trigTimeB := 20,
        echoDurA := 0, echoDurB := 0 }).emerStart = 20 ∧
    (tick initState
      { now := 0, emerButtonA := true, emerButtonB := false,
        trigTimeA := 10, trigTimeB := 10,
        echoDurA := 0, echoDurB := 0 }).lightsA = LightPhase.PHASE_GREEN ∧
    (tick initState
      { now := 0, emerButtonA := true, emerButtonB := false,
        trigTimeA := 10, trigTimeB := 10,
        echoDurA := 0, echoDurB := 0 }).lightsB = LightPhase.PHASE_RED ∧
    (tick (tick initState
        { now := 0, emerButtonA := true, emerButtonB := false,
          trigTimeA := 10, trigTimeB := 10,
          echoDurA := 0, echoDurB := 0 })
      { now := 1000, emerButtonA := false, emerButtonB := true,
        trigTimeA := 1010, trigTimeB := 1010,
        echoDurA := 0, echoDurB := 0 }).lightsA = LightPhase.PHASE_RED ∧
    (tick (tick initState
        { now := 0, emerButtonA := true, emerButtonB := false,
          trigTimeA := 10, trigTimeB := 10,
          echoDurA := 0, echoDurB := 0 })
      { now := 1000, emerButtonA := false, emerButtonB := true,
        trigTimeA := 1010, trigTimeB := 1010,
        echoDurA := 0, echoDurB := 0 }).lightsB = LightPhase.PHASE_GREEN := by
  decide

/-- C4 amended: no emergency request is ignored and none stays active
across ticks. Each confirmed request — even one arriving while the other
road's request is in force, on the same tick or a later one — immediately
switches the lights to its own road and overwrites the recorded stamp
(the most recent request wins); and every trigger tick self-cancels
within the tick (the stale loop-top `now` is below the post-delay
`emerStart`, so the unsigned deadline test wraps and fires), ending in
`STATE_COUNTING` with the emergency flags cleared, the counters reset and
the requested road's Green still latched. -/
theorem c4_second_request_preempts (st : SysState) (inp : TickInput) :
    (inp.emerButtonB = true →
      (tick st inp).lightsA = LightPhase.PHASE_RED ∧
      (tick st inp).lightsB = LightPhase.PHASE_GREEN ∧
      (tick st inp).emerStart = inp.trigTimeB) ∧
    (inp.emerButtonB = true → inp.now < inp.trigTimeB →
      (tick st inp).sysState = SystemState.STATE_COUNTING ∧
      (tick st inp).emerActive = false ∧
      (tick st inp).emerRoad = 0 ∧
      (tick st inp).countA = 0 ∧
      (tick st inp).countB = 0 ∧
      (tick st inp).cycleStartTime = inp.trigTimeB) ∧
    (inp.emerButtonA = true → inp.emerButtonB = false →
      (tick st inp).lightsA = LightPhase.PHASE_GREEN ∧
      (tick st inp).lightsB = LightPhase.PHASE_RED ∧
      (tick st inp).emerStart = inp.trigTimeA) ∧
    (inp.emerButtonA = true → inp.emerButtonB = false →
      inp.now < inp.trigTimeA →
      (tick st inp).sysState = SystemState.STATE_COUNTING ∧
      (tick st inp).emerActive = false ∧
      (tick st inp).emerRoad = 0 ∧
      (tick st inp).countA = 0 ∧
      (tick st inp).countB = 0 ∧
      (tick st inp).cycleStartTime = inp.trigTimeA) := by
  refine ⟨fun hB => ?_, fun hB ht => ?_, fun hA hB => ?_, fun hA hB ht => ?_⟩
  · rw [tick_pressedB st inp hB]
    obtain ⟨hl1, hl2, hl3⟩ := emergencyStep_keeps
      (triggerEmergency
        (if inp.emerButtonA then triggerEmergency st 1 inp.trigTimeA else st)
        2 inp.trigTimeB)
      inp.now inp.trigTimeB
    rw [hl1, hl2, hl3, triggerEmergency_B]
    exact ⟨rfl, rfl, rfl⟩
  · rw [tick_pressedB st inp hB, triggerEmergency_B,
      emergencyStep_trigger_cancel _ _ _ ht]
    exact ⟨rfl, rfl, rfl, rfl, rfl, rfl⟩
  · rw [tick_pressedA st inp hA hB]
    obtain ⟨hl1, hl2, hl3⟩ := emergencyStep_keeps
      (triggerEmergency st 1 inp.trigTimeA) inp.now inp.trigTimeA
    rw [hl1, hl2, hl3, triggerEmergency_A]
    exact ⟨rfl, rfl, rfl⟩
  · rw [tick_pressedA st inp hA hB, triggerEmergency_A,
      emergencyStep_trigger_cancel _ _ _ ht]
    exact ⟨rfl, rfl, rfl, rfl, rfl, rfl⟩

/-- Witness for `c4_second_request_preempts`: road B pressed at time 1000
(stamp 1010) while road A's green is latched from its earlier request —
the lights switch to B and the tick ends back in counting mode with the
flags cleared. -/
theorem c4_second_request_preempts_witness :
    (tick { initState with
        emerStart := 10
        lightsA := LightPhase.PHASE_GREEN
        lightsB := LightPhase.PHASE_RED }
      { now := 1000, emerButtonA := false, emerButtonB := true,
        trigTimeA := 1010, trigTimeB := 1010,
        echoDurA := 0, echoDurB := 0 }).lightsA = LightPhase.PHASE_RED ∧
    (tick { initState with
        emerStart := 10
        lightsA := LightPhase.PHASE_GREEN
        lightsB := LightPhase.PHASE_RED }
      { now := 1000, emerButtonA := false, emerButtonB := true,
        trigTimeA := 1010, trigTimeB := 1010,
        echoDurA := 0, echoDurB := 0 }).lightsB = LightPhase.PHASE_GREEN ∧
    (tick { initState with
        emerStart := 10
        lightsA := LightPhase.PHASE_GREEN
        lightsB := LightPhase.PHASE_RED }
      { now := 1000, emerButtonA := false, emerButtonB := true,
        trigTimeA := 1010, trigTimeB := 1010,
        echoDurA := 0, echoDurB := 0 }).emerStart = 1010 ∧
    (tick { initState with
        emerStart := 10
        lightsA := LightPhase.PHASE_GREEN
        lightsB := LightPhase.PHASE_RED }
      { now := 1000, emerButtonA := false, emerButtonB := true,
        trigTimeA := 1010, trigTimeB := 1010,
        echoDurA := 0, echoDurB := 0 }).sysState =
      SystemState.STATE_COUNTING ∧
    (tick { initState with
        emerStart := 10
        lightsA := LightPhase.PHASE_GREEN
        lightsB := LightPhase.PHASE_RED }
      { now := 1000, emerButtonA := false, emerButtonB := true,
        trigTimeA := 1010, trigTimeB := 1010,
        echoDurA := 0, echoDurB := 0 }).emerRoad = 0 := by
  have h := c4_second_request_preempts
    { initState with
      emerStart := 10
      lightsA := LightPhase.PHASE_GREEN
      lightsB := LightPhase.PHASE_RED }
    { now := 1000, emerButtonA := false, emerButtonB := true,
      trigTimeA := 1010, trigTimeB := 1010,
      echoDurA := 0, echoDurB := 0 }
  exact ⟨(h.1 rfl).1, (h.1 rfl).2.1, (h.1 rfl).2.2,
    (h.2.1 rfl (by decide)).1, (h.2.1 rfl (by decide)).2.2.1⟩

/-! ## C10: a held emergency button re-triggers every tick -/

/-- A pressed-A tick (button confirmed, stamp later than the stale
loop-top read) always ends the same way, from any state: the trigger
forces A Green / B Red and enters the emergency mode, and the same tick's
emergency case wraps on the stale `now` and cancels it again — counting
mode, flags cleared, counters and sensors reset, window clock restarted
at the stamp, the forced lights left in place. -/
lemma tick_pressedA_cancel (st : SysState) (inp : TickInput)
    (hA : inp.emerButtonA = true) (hB : inp.emerButtonB = false)
    (ht : inp.now < inp.trigTimeA) :
    tick st inp = { st with
      countA := 0
      countB := 0
      sA := {}
      sB := {}
      cycleStartTime := inp.trigTimeA
      sysState := SystemState.STATE_COUNTING
      lastSensorPoll := 0
      emerActive := false
      emerStart := inp.trigTimeA
      emerRoad := 0
      lightsA := LightPhase.PHASE_GREEN
      lightsB := LightPhase.PHASE_RED } := by
  rw [tick_pressedA st inp hA hB, triggerEmergency_A,
    emergencyStep_trigger_cancel _ _ _ ht]
  rfl

/-- C10 counterexample: a single pressed tick (signal for road A at time
0, post-delay stamp 10) does NOT leave the controller in Emergency mode
for `EMERGENCY_GREEN_MS`: the stale loop-top `now` makes the unsigned
deadline test wrap, so the very same tick ends in `STATE_COUNTING` with
the emergency cleared — only the forced green stays latched. -/
theorem c10_counterexample :
    (tick initState
      { now := 0, emerButtonA := true, emerButtonB := false,
        trigTimeA := 10, trigTimeB := 10,
        echoDurA := 0, echoDurB := 0 }).sysState =
      SystemState.STATE_COUNTING ∧
    (tick initState
      { now := 0, emerButtonA := true, emerButtonB := false,
        trigTimeA := 10, trigTimeB := 10,
        echoDurA := 0, echoDurB := 0 }).emerActive = false ∧
    (tick initState
      { now := 0, emerButtonA := true, emerButtonB := false,
        trigTimeA := 10, trigTimeB := 10,
        echoDurA := 0, echoDurB := 0 }).emerRoad = 0 ∧
    (tick initState
      { now := 0, emerButtonA := true, emerButtonB := false,
        trigTimeA := 10, trigTimeB := 10,
        echoDurA := 0, echoDurB := 0 }).lightsA = LightPhase.PHASE_GREEN ∧
    (tick initState
      { now := 0, emerButtonA := true, emerButtonB := false,
        trigTimeA := 10, trigTimeB := 10,
        echoDurA := 0, echoDurB := 0 }).lightsB = LightPhase.PHASE_RED := by
  decide

/-- C10 amended: while road A's input reads pressed, every tick does
re-trigger and overwrite the start stamp — but each trigger self-cancels
within its own tick (the stale loop-top `now` wraps the unsigned deadline
test), so Emergency mode never survives a tick. After any non-empty run
of pressed ticks the controller is in `STATE_COUNTING` with the emergency
flags cleared, the counters at zero, the counting window restarted at the
LAST tick's stamp, and road A's Green latched. A held input therefore
keeps the road Green indefinitely, and after release the green persists
because the freshly restarted counting window (`CYCLE_TOTAL_MS` from the
last press) is still running — not because of a 10 s emergency deadline. -/
theorem c10_held_button (st : SysState) (first : TickInput)
    (rest : List TickInput)
    (hall : ∀ i ∈ first :: rest,
      i.emerButtonA = true ∧ i.emerButtonB = false ∧ i.now < i.trigTimeA) :
    (runTicks st (first :: rest)).sysState = SystemState.STATE_COUNTING ∧
    (runTicks st (first :: rest)).emerActive = false ∧
    (runTicks st (first :: rest)).emerRoad = 0 ∧
    (runTicks st (first :: rest)).countA = 0 ∧
    (runTicks st (first :: rest)).countB = 0 ∧
    (runTicks st (first :: rest)).lightsA = LightPhase.PHASE_GREEN ∧
    (runTicks st (first :: rest)).lightsB = LightPhase.PHASE_RED ∧
    (runTicks st (first :: rest)).emerStart =
      ((first :: rest).getLast (List.cons_ne_nil _ _)).trigTimeA ∧
    (runTicks st (first :: rest)).cycleStartTime =
      ((first :: rest).getLast (List.cons_ne_nil _ _)).trigTimeA := by
  induction rest generalizing st first with
  | nil =>
    obtain ⟨hA, hB, ht⟩ := hall first (List.mem_cons_self _ _)
    have h : runTicks st [first] = tick st first := rfl
    rw [h, tick_pressedA_cancel st first hA hB ht]
    exact ⟨rfl, rfl, rfl, rfl, rfl, rfl, rfl, rfl, rfl⟩
  | cons i is ih =>
    have h : runTicks st (first :: i :: is) =
        runTicks (tick st first) (i :: is) := rfl
    have hall' : ∀ j ∈ i :: is,
        j.emerButtonA = true ∧ j.emerButtonB = false ∧ j.now < j.trigTimeA :=
      fun j hj => hall j (List.mem_cons_of_mem _ hj)
    have hlast : ((first :: i :: is).getLast (List.cons_ne_nil _ _)) =
        ((i :: is).getLast (List.cons_ne_nil _ _)) := by
      simp [List.getLast_cons]
    rw [h, hlast]
    exact ih (tick st first) i hall'

/-- Witness for `c10_held_button`: three consecutive ticks with road A's
button held (each stamp 10 ms past its loop-top read) end in counting
mode with road A still Green and the window clock at the last stamp. -/
theorem c10_held_button_witness :
    (runTicks initState
      [{ now := 0, emerButtonA := true, emerButtonB := false,
         trigTimeA := 10, trigTimeB := 10, echoDurA := 0, echoDurB := 0 },
       { now := 9000, emerButtonA := true, emerButtonB := false,
         trigTimeA := 9010, trigTimeB := 9010, echoDurA := 0, echoDurB := 0 },
       { now := 25000, emerButtonA := true, emerButtonB := false,
         trigTimeA := 25010, trigTimeB := 25010,
         echoDurA := 0, echoDurB := 0 }]).sysState =
      SystemState.STATE_COUNTING ∧
    (runTicks initState
      [{ now := 0, emerButtonA := true, emerButtonB := false,
         trigTimeA := 10, trigTimeB := 10, echoDurA := 0, echoDurB := 0 },
       { now := 9000, emerButtonA := true, emerButtonB := false,
         trigTimeA := 9010, trigTimeB := 9010, echoDurA := 0, echoDurB := 0 },
       { now := 25000, emerButtonA := true, emerButtonB := false,
         trigTimeA := 25010, trigTimeB := 25010,
         echoDurA := 0, echoDurB := 0 }]).lightsA = LightPhase.PHASE_GREEN ∧
    (runTicks initState
      [{ now := 0, emerButtonA := true, emerButtonB := false,
         trigTimeA := 10, trigTimeB := 10, echoDurA := 0, echoDurB := 0 },
       { now := 9000, emerButtonA := true, emerButtonB := false,
         trigTimeA := 9010, trigTimeB := 9010, echoDurA := 0, echoDurB := 0 },
       { now := 25000, emerButtonA := true, emerButtonB := false,
         trigTimeA := 25010, trigTimeB := 25010,
         echoDurA := 0, echoDurB := 0 }]).lightsB = LightPhase.PHASE_RED ∧
    (runTicks initState
      [{ now := 0, emerButtonA := true, emerButtonB := false,
         trigTimeA := 10, trigTimeB := 10, echoDurA := 0, echoDurB := 0 },
       { now := 9000, emerButtonA := true, emerButtonB := false,
         trigTimeA := 9010, trigTimeB := 9010, echoDurA := 0, echoDurB := 0 },
       { now := 25000, emerButtonA := true, emerButtonB := false,
         trigTimeA := 25010, trigTimeB := 25010,
         echoDurA := 0, echoDurB := 0 }]).emerStart = 25010 ∧
    (runTicks initState
      [{ now := 0, emerButtonA := true, emerButtonB := false,
         trigTimeA := 10, trigTimeB := 10, echoDurA := 0, echoDurB := 0 },
       { now := 9000, emerButtonA := true, emerButtonB := false,
         trigTimeA := 9010, trigTimeB := 9010, echoDurA := 0, echoDurB := 0 },
       { now := 25000, emerButtonA := true, emerButtonB := false,
         trigTimeA := 25010, trigTimeB := 25010,
         echoDurA := 0, echoDurB := 0 }]).cycleStartTime = 25010 := by
  have h := c10_held_button initState
    { now := 0, emerButtonA := true, emerButtonB := false,
      trigTimeA := 10, trigTimeB := 10, echoDurA := 0, echoDurB := 0 }
    [{ now := 9000, emerButtonA := true, emerButtonB := false,
       trigTimeA := 9010, trigTimeB := 9010, echoDurA := 0, echoDurB := 0 },
     { now := 25000, emerButtonA := true, emerButtonB := false,
       trigTimeA := 25010, trigTimeB := 25010,
       echoDurA := 0, echoDurB := 0 }]
    (by decide)
  exact ⟨h.1, h.2.2.2.2.2.1, h.2.2.2.2.2.2.1,
    h.2.2.2.2.2.2.2.1, h.2.2.2.2.2.2.2.2⟩


/-! ## C5: emergency timeout restarts a fresh counting cycle -/

/-- C5: in `STATE_EMERGENCY`, on a tick at or past the recorded deadline
(`emerStart + EMERGENCY_GREEN_MS`) with no button pressed, the controller
clears the emergency, zeroes both counters, resets both sensor state
machines to their initial values, and transitions to `STATE_COUNTING` with
the window clock restarted at this tick — and the green durations are left
untouched: no allocation formula runs for the interrupted cycle. -/
theorem c5_emergency_timeout (st : SysState) (inp : TickInput)
    (hA : inp.emerButtonA = false) (hB : inp.emerButtonB = false)
    (hs : st.sysState = SystemState.STATE_EMERGENCY)
    (hd : st.emerStart + EMERGENCY_GREEN_MS ≤ inp.now) :
    (tick st inp).sysState = SystemState.STATE_COUNTING ∧
    (tick st inp).countA = 0 ∧
    (tick st inp).countB = 0 ∧
    (tick st inp).sA = {} ∧
    (tick st inp).sB = {} ∧
    (tick st inp).emerActive = false ∧
    (tick st inp).emerRoad = 0 ∧
    (tick st inp).cycleStartTime = inp.now ∧
    (tick st inp).greenDurationA = st.greenDurationA ∧
    (tick st inp).greenDurationB = st.greenDurationB := by
  rw [tick_emergency st inp hA hB hs]
  have hcond : inp.now - st.emerStart ≥ EMERGENCY_GREEN_MS := by omega
  unfold emergencyStep
  rw [if_pos (Or.inr hcond)]
  unfold resetCountingCycle
  exact ⟨rfl, rfl, rfl, rfl, rfl, rfl, rfl, rfl, rfl, rfl⟩

/-- Witness for `c5_emergency_timeout`: an emergency for road A raised at
time 0 ends on the tick at time 10000, returning to counting with both
counts at 0. -/
theorem c5_emergency_timeout_witness :
    (tick { initState with
        sysState := SystemState.STATE_EMERGENCY
        emerActive := true
        emerRoad := 1
        emerStart := 0
        countA := 7
        countB := 3
        lightsA := LightPhase.PHASE_GREEN
        lightsB := LightPhase.PHASE_RED }
      { now := 10000, emerButtonA := false, emerButtonB := false,
        trigTimeA := 10000, trigTimeB := 10000,
        echoDurA := 0, echoDurB := 0 }).sysState =
        SystemState.STATE_COUNTING ∧
    (tick { initState with
        sysState := SystemState.STATE_EMERGENCY
        emerActive := true
        emerRoad := 1
        emerStart := 0
        countA := 7
        countB := 3
        lightsA := LightPhase.PHASE_GREEN
        lightsB := LightPhase.PHASE_RED }
      { now := 10000, emerButtonA := false, emerButtonB := false,
        trigTimeA := 10000, trigTimeB := 10000,
        echoDurA := 0, echoDurB := 0 }).countA = 0 ∧
    (tick { initState with
        sysState := SystemState.STATE_EMERGENCY
        emerActive := true
        emerRoad := 1
        emerStart := 0
        countA := 7
        countB := 3
        lightsA := LightPhase.PHASE_GREEN
        lightsB := LightPhase.PHASE_RED }
      { now := 10000, emerButtonA := false, emerButtonB := false,
        trigTimeA := 10000, trigTimeB := 10000,
        echoDurA := 0, echoDurB := 0 }).countB = 0 ∧
    (tick { initState with
        sysState := SystemState.STATE_EMERGENCY
        emerActive := true
        emerRoad := 1
        emerStart := 0
        countA := 7
        countB := 3
        lightsA := LightPhase.PHASE_GREEN
        lightsB := LightPhase.PHASE_RED }
      { now := 10000, emerButtonA := false, emerButtonB := false,
        trigTimeA := 10000, trigTimeB := 10000,
        echoDurA := 0, echoDurB := 0 }).sA = {} ∧
    (tick { initState with
        sysState := SystemState.STATE_EMERGENCY
        emerActive := true
        emerRoad := 1
        emerStart := 0
        countA := 7
        countB := 3
        lightsA := LightPhase.PHASE_GREEN
        lightsB := LightPhase.PHASE_RED }
      { now := 10000, emerButtonA := false, emerButtonB := false,
        trigTimeA := 10000, trigTimeB := 10000,
        echoDurA := 0, echoDurB := 0 }).sB = {} ∧
    (tick { initState with
        sysState := SystemState.STATE_EMERGENCY
        emerActive := true
        emerRoad := 1
        emerStart := 0
        countA := 7
        countB := 3
        lightsA := LightPhase.PHASE_GREEN
        lightsB := LightPhase.PHASE_RED }
      { now := 10000, emerButtonA := false, emerButtonB := false,
        trigTimeA := 10000, trigTimeB := 10000,
        echoDurA := 0, echoDurB := 0 }).emerActive = false ∧
    (tick { initState with
        sysState := SystemState.STATE_EMERGENCY
        emerActive := true
        emerRoad := 1
        emerStart := 0
        countA := 7
        countB := 3
        lightsA := LightPhase.PHASE_GREEN
        lightsB := LightPhase.PHASE_RED }
      { now := 10000, emerButtonA := false, emerButtonB := false,
        trigTimeA := 10000, trigTimeB := 10000,
        echoDurA := 0, echoDurB := 0 }).emerRoad = 0 ∧
    (tick { initState with
        sysState := SystemState.STATE_EMERGENCY
        emerActive := true
        emerRoad := 1
        emerStart := 0
        countA := 7
        countB := 3
        lightsA := LightPhase.PHASE_GREEN
        lightsB := LightPhase.PHASE_RED }
      { now := 10000, emerButtonA := false, emerButtonB := false,
        trigTimeA := 10000, trigTimeB := 10000,
        echoDurA := 0, echoDurB := 0 }).cycleStartTime = 10000 ∧
    (tick { initState with
        sysState := SystemState.STATE_EMERGENCY
        emerActive := true
        emerRoad := 1
        emerStart := 0
        countA := 7
        countB := 3
        lightsA := LightPhase.PHASE_GREEN
        lightsB := LightPhase.PHASE_RED }
      { now := 10000, emerButtonA := false, emerButtonB := false,
        trigTimeA := 10000, trigTimeB := 10000,
        echoDurA := 0, echoDurB := 0 }).greenDurationA =
      { initState with
        sysState := SystemState.STATE_EMERGENCY
        emerActive := true
        emerRoad := 1
        emerStart := 0
        countA := 7
        countB := 3
        lightsA := LightPhase.PHASE_GREEN
        lightsB := LightPhase.PHASE_RED : SysState }.greenDurationA ∧
    (tick { initState with
        sysState := SystemState.STATE_EMERGENCY
        emerActive := true
        emerRoad := 1
        emerStart := 0
        countA := 7
        countB := 3
        lightsA := LightPhase.PHASE_GREEN
        lightsB := LightPhase.PHASE_RED }
      { now := 10000, emerButtonA := false, emerButtonB := false,
        trigTimeA := 10000, trigTimeB := 10000,
        echoDurA := 0, echoDurB := 0 }).greenDurationB =
      { initState with
        sysState := SystemState.STATE_EMERGENCY
        emerActive := true
        emerRoad := 1
        emerStart := 0
        countA := 7
        countB := 3
        lightsA := LightPhase.PHASE_GREEN
        lightsB := LightPhase.PHASE_RED : SysState }.greenDurationB :=
  c5_emergency_timeout _ _ rfl rfl rfl (by decide)

/-! ## C6: the four-segment execution window -/

/-- C6: with no emergency signal, a tick in `STATE_EXECUTING_TIMES` plays
out exactly four contiguous segments, boundaries half-open on the left.
With road A first: `[0, gA)` leaves the state untouched (so the
Green/Red lights set at phase start persist), `[gA, gA+3s)` is
Yellow/Red, `[gA+3s, gA+3s+gB)` is Red/Green, `[gA+3s+gB, gA+3s+gB+3s)`
is Red/Yellow, and any elapsed at or past `gA+3s+gB+3s` ends the window:
a fresh counting cycle starts (counts zeroed, window clock restarted).
With road B first the segments are mirrored. The road not in its own
green/yellow segment shows Red throughout. -/
theorem c6_sequencer (st : SysState) (inp : TickInput)
    (hA : inp.emerButtonA = false) (hB : inp.emerButtonB = false)
    (hs : st.sysState = SystemState.STATE_EXECUTING_TIMES) :
    (st.executingAfirst = true →
      (inp.now - st.execPhaseStart < st.greenDurationA →
        tick st inp = st) ∧
      (st.greenDurationA ≤ inp.now - st.execPhaseStart →
        inp.now - st.execPhaseStart < st.greenDurationA + 3000 →
        (tick st inp).lightsA = LightPhase.PHASE_YELLOW ∧
        (tick st inp).lightsB = LightPhase.PHASE_RED ∧
        (tick st inp).sysState = SystemState.STATE_EXECUTING_TIMES) ∧
      (st.greenDurationA + 3000 ≤ inp.now - st.execPhaseStart →
        inp.now - st.execPhaseStart <
          st.greenDurationA + 3000 + st.greenDurationB →
        (tick st inp).lightsA = LightPhase.PHASE_RED ∧
        (tick st inp).lightsB = LightPhase.PHASE_GREEN ∧
        (tick st inp).sysState = SystemState.STATE_EXECUTING_TIMES) ∧
      (st.greenDurationA + 3000 + st.greenDurationB ≤
          inp.now - st.execPhaseStart →
        inp.now - st.execPhaseStart <
          st.greenDurationA + 3000 + st.greenDurationB + 3000 →
        (tick st inp).lightsA = LightPhase.PHASE_RED ∧
        (tick st inp).lightsB = LightPhase.PHASE_YELLOW ∧
        (tick st inp).sysState = SystemState.STATE_EXECUTING_TIMES) ∧
      (st.greenDurationA + 3000 + st.greenDurationB + 3000 ≤
          inp.now - st.execPhaseStart →
        (tick st inp).sysState = SystemState.STATE_COUNTING ∧
        (tick st inp).countA = 0 ∧
        (tick st inp).countB = 0 ∧
        (tick st inp).cycleStartTime = inp.now)) ∧
    (st.executingAfirst = false →
      (inp.now - st.execPhaseStart < st.greenDurationB →
        tick st inp = st) ∧
      (st.greenDurationB ≤ inp.now - st.execPhaseStart →
        inp.now - st.execPhaseStart < st.greenDurationB + 3000 →
        (tick st inp).lightsA = LightPhase.PHASE_RED ∧
        (tick st inp).lightsB = LightPhase.PHASE_YELLOW ∧
        (tick st inp).sysState = SystemState.STATE_EXECUTING_TIMES) ∧
      (st.greenDurationB + 3000 ≤ inp.now - st.execPhaseStart →
        inp.now - st.execPhaseStart <
          st.greenDurationB + 3000 + st.greenDurationA →
        (tick st inp).lightsA = LightPhase.PHASE_GREEN ∧
        (tick st inp).lightsB = LightPhase.PHASE_RED ∧
        (tick st inp).sysState = SystemState.STATE_EXECUTING_TIMES) ∧
      (st.greenDurationB + 3000 + st.greenDurationA ≤
          inp.now - st.execPhaseStart →
        inp.now - st.execPhaseStart <
          st.greenDurationB + 3000 + st.greenDurationA + 3000 →
        (tick st inp).lightsA = LightPhase.PHASE_YELLOW ∧
        (tick st inp).lightsB = LightPhase.PHASE_RED ∧
        (tick st inp).sysState = SystemState.STATE_EXECUTING_TIMES) ∧
      (st.greenDurationB + 3000 + st.greenDurationA + 3000 ≤
          inp.now - st.execPhaseStart →
        (tick st inp).sysState = SystemState.STATE_COUNTING ∧
        (tick st inp).countA = 0 ∧
        (tick st inp).countB = 0 ∧
        (tick st inp).cycleStartTime = inp.now)) := by
  rw [tick_exec st inp hA hB hs]
  constructor
  · intro hfirst
    refine ⟨fun h1 => ?_, fun h2a h2b => ?_, fun h3a h3b => ?_,
      fun h4a h4b => ?_, fun h5 => ?_⟩
    · simp only [execStep, hfirst, if_true]
      rw [if_pos h1]
    · simp only [execStep, hfirst, if_true]
      rw [if_neg (by omega), if_pos h2b]
      exact ⟨rfl, rfl, hs⟩
    · simp only [execStep, hfirst, if_true]
      rw [if_neg (by omega), if_neg (by omega), if_pos h3b]
      exact ⟨rfl, rfl, hs⟩
    · simp only [execStep, hfirst, if_true]
      rw [if_neg (by omega), if_neg (by omega), if_neg (by omega),
        if_pos h4b]
      exact ⟨rfl, rfl, hs⟩
    · simp only [execStep, hfirst, if_true]
      rw [if_neg (by omega), if_neg (by omega), if_neg (by omega),
        if_neg (by omega)]
      exact ⟨rfl, rfl, rfl, rfl⟩
  · intro hfirst
    refine ⟨fun h1 => ?_, fun h2a h2b => ?_, fun h3a h3b => ?_,
      fun h4a h4b => ?_, fun h5 => ?_⟩
    · simp only [execStep, hfirst, Bool.false_eq_true, if_false]
      rw [if_pos h1]
    · simp only [execStep, hfirst, Bool.false_eq_true, if_false]
      rw [if_neg (by omega), if_pos h2b]
      exact ⟨rfl, rfl, hs⟩
    · simp only [execStep, hfirst, Bool.false_eq_true, if_false]
      rw [if_neg (by omega), if_neg (by omega), if_pos h3b]
      exact ⟨rfl, rfl, hs⟩
    · simp only [execStep, hfirst, Bool.false_eq_true, if_false]
      rw [if_neg (by omega), if_neg (by omega), if_neg (by omega),
        if_pos h4b]
      exact ⟨rfl, rfl, hs⟩
    · simp only [execStep, hfirst, Bool.false_eq_true, if_false]
      rw [if_neg (by omega), if_neg (by omega), if_neg (by omega),
        if_neg (by omega)]
      exact ⟨rfl, rfl, rfl, rfl⟩

/-- A mid-execution state for exercising the sequencer: road A first,
`durationA` = 50 s, `durationB` = 70 s, first segment's lights set. -/
def seqDemoState : SysState :=
  { initState with
    sysState := SystemState.STATE_EXECUTING_TIMES
    executingAfirst := true
    execPhaseStart := 0
    greenDurationA := 50000
    greenDurationB := 70000
    lightsA := LightPhase.PHASE_GREEN
    lightsB := LightPhase.PHASE_RED }

/-- A tick input with no emergency signal and no echo, at time `t` (the
trigger-stamp fields are irrelevant on such a tick). -/
def quietAt (t : ℕ) : TickInput :=
  { now := t, emerButtonA := false, emerButtonB := false,
    trigTimeA := t, trigTimeB := t, echoDurA := 0, echoDurB := 0 }

/-- Witness for `c6_sequencer`: the spec's example plan (A first, 50 s /
70 s, 3 s yellow) sampled at both sides of every boundary — boundaries
belong to the newly entered segment, and elapsed 126 s ends the window. -/
theorem c6_sequencer_witness :
    tick seqDemoState (quietAt 0) = seqDemoState ∧
    tick seqDemoState (quietAt 49999) = seqDemoState ∧
    (tick seqDemoState (quietAt 50000)).lightsA = LightPhase.PHASE_YELLOW ∧
    (tick seqDemoState (quietAt 50000)).lightsB = LightPhase.PHASE_RED ∧
    (tick seqDemoState (quietAt 52999)).lightsA = LightPhase.PHASE_YELLOW ∧
    (tick seqDemoState (quietAt 53000)).lightsA = LightPhase.PHASE_RED ∧
    (tick seqDemoState (quietAt 53000)).lightsB = LightPhase.PHASE_GREEN ∧
    (tick seqDemoState (quietAt 122999)).lightsB = LightPhase.PHASE_GREEN ∧
    (tick seqDemoState (quietAt 123000)).lightsB = LightPhase.PHASE_YELLOW ∧
    (tick seqDemoState (quietAt 123000)).lightsA = LightPhase.PHASE_RED ∧
    (tick seqDemoState (quietAt 125999)).lightsB = LightPhase.PHASE_YELLOW ∧
    (tick seqDemoState (quietAt 126000)).sysState =
      SystemState.STATE_COUNTING := by
  have h := fun t => c6_sequencer seqDemoState (quietAt t) rfl rfl rfl
  exact ⟨((h 0).1 rfl).1 (by decide),
    ((h 49999).1 rfl).1 (by decide),
    (((h 50000).1 rfl).2.1 (by decide) (by decide)).1,
    (((h 50000).1 rfl).2.1 (by decide) (by decide)).2.1,
    (((h 52999).1 rfl).2.1 (by decide) (by decide)).1,
    (((h 53000).1 rfl).2.2.1 (by decide) (by decide)).1,
    (((h 53000).1 rfl).2.2.1 (by decide) (by decide)).2.1,
    (((h 122999).1 rfl).2.2.1 (by decide) (by decide)).2.1,
    (((h 123000).1 rfl).2.2.2.1 (by decide) (by decide)).2.1,
    (((h 123000).1 rfl).2.2.2.1 (by decide) (by decide)).1,
    (((h 125999).1 rfl).2.2.2.1 (by decide) (by decide)).2.1,
    (((h 126000).1 rfl).2.2.2.2 (by decide)).1⟩

/-! ## C7: the busier road is served first -/

/-- C7: when the counting window ends with no emergency signal pending and
no sensor poll due this tick, the plan is built with `executingAfirst`
exactly when road A's count is greater than or equal to road B's (road A
wins ties), and that road's light goes Green (the other Red) for the first
segment of the execution window. -/
theorem c7_first_road (st : SysState) (inp : TickInput)
    (hA : inp.emerButtonA = false) (hB : inp.emerButtonB = false)
    (hs : st.sysState = SystemState.STATE_COUNTING)
    (hpoll : inp.now - st.lastSensorPoll < SENSOR_POLL_MS)
    (hwin : CYCLE_TOTAL_MS ≤ inp.now - st.cycleStartTime) :
    (tick st inp).sysState = SystemState.STATE_EXECUTING_TIMES ∧
    (tick st inp).executingAfirst = decide (st.countB ≤ st.countA) ∧
    (st.countB ≤ st.countA →
      (tick st inp).lightsA = LightPhase.PHASE_GREEN ∧
      (tick st inp).lightsB = LightPhase.PHASE_RED) ∧
    (st.countA < st.countB →
      (tick st inp).lightsA = LightPhase.PHASE_RED ∧
      (tick st inp).lightsB = LightPhase.PHASE_GREEN) := by
  have hred : tick st inp = startExecutionPhase st inp.now := by
    rw [tick_counting st inp hA hB hs]
    simp only [countingStep]
    rw [if_neg (show ¬ (inp.now - st.lastSensorPoll ≥ SENSOR_POLL_MS) from
      by omega)]
    rw [if_pos (show inp.now - st.cycleStartTime ≥ CYCLE_TOTAL_MS from hwin)]
  rw [hred]
  exact ⟨startExec_sysState st inp.now, startExec_first st inp.now,
    (startExec_lights st inp.now).1, (startExec_lights st inp.now).2⟩

/-- Witness for `c7_first_road`: a window ending with counts A = 3, B = 9
serves road B first — B Green, A Red in the first segment. -/
theorem c7_first_road_witness :
    (tick { initState with countA := 3, countB := 9, lastSensorPoll := 120000 }
      (quietAt 120000)).sysState = SystemState.STATE_EXECUTING_TIMES ∧
    (tick { initState with countA := 3, countB := 9, lastSensorPoll := 120000 }
      (quietAt 120000)).executingAfirst = decide ((9 : ℕ) ≤ 3) ∧
    ((9 : ℕ) ≤ 3 →
      (tick { initState with countA := 3, countB := 9, lastSensorPoll := 120000 }
        (quietAt 120000)).lightsA = LightPhase.PHASE_GREEN ∧
      (tick { initState with countA := 3, countB := 9, lastSensorPoll := 120000 }
        (quietAt 120000)).lightsB = LightPhase.PHASE_RED) ∧
    ((3 : ℕ) < 9 →
      (tick { initState with countA := 3, countB := 9, lastSensorPoll := 120000 }
        (quietAt 120000)).lightsA = LightPhase.PHASE_RED ∧
      (tick { initState with countA := 3, countB := 9, lastSensorPoll := 120000 }
        (quietAt 120000)).lightsB = LightPhase.PHASE_GREEN) :=
  c7_first_road _ _ rfl rfl rfl (by decide) (by decide)

/-! ## Helper lemmas about the debounce state machine -/

/-- A reading matching the current debounced state changes nothing. -/
lemma updateSensor_stable (s : SensorState) (d : ℤ) (t c : ℕ)
    (h : vehiclePresent d = s.present) :
    updateSensor s d t c = (s, c) := by
  simp [updateSensor, h]

/-- A candidate change is rejected while the previous state has not yet
held for the direction's debounce interval. -/
lemma updateSensor_reject (s : SensorState) (d : ℤ) (t c : ℕ)
    (hne : vehiclePresent d ≠ s.present)
    (htime : t - s.lastChange <
      (if vehiclePresent d then PRESENCE_DEBOUNCE_MS else ABSENCE_DEBOUNCE_MS)) :
    updateSensor s d t c = (s, c) := by
  simp only [updateSensor]
  rw [if_pos (by simpa using hne), if_neg (by omega)]

/-- An accepted absent→present transition marks `waitingForAbsence` and
does not count. -/
lemma updateSensor_arrive (s : SensorState) (d : ℤ) (t c : ℕ)
    (hp : vehiclePresent d = true) (hnp : s.present = false)
    (ht : s.lastChange + PRESENCE_DEBOUNCE_MS ≤ t) :
    updateSensor s d t c =
      ({ present := true, lastChange := t, waitingForAbsence := true }, c) := by
  have hneq : vehiclePresent d ≠ s.present := by rw [hp, hnp]; simp
  have htime : t - s.lastChange ≥
      (if vehiclePresent d then PRESENCE_DEBOUNCE_MS else ABSENCE_DEBOUNCE_MS) := by
    rw [hp, if_pos rfl]
    unfold PRESENCE_DEBOUNCE_MS at ht ⊢
    omega
  simp only [updateSensor]
  rw [if_pos hneq, if_pos htime, if_pos hp]
  simp [hp]

/-- An accepted present→absent transition with `waitingForAbsence` set
counts exactly one pass and clears `waitingForAbsence`. -/
lemma updateSensor_depart (s : SensorState) (d : ℤ) (t c : ℕ)
    (hp : vehiclePresent d = false) (hpr : s.present = true)
    (hw : s.waitingForAbsence = true)
    (ht : s.lastChange + ABSENCE_DEBOUNCE_MS ≤ t) :
    updateSensor s d t c =
      ({ present := false, lastChange := t, waitingForAbsence := false },
        c + 1) := by
  have hneq : vehiclePresent d ≠ s.present := by rw [hp, hpr]; simp
  have htime : t - s.lastChange ≥
      (if vehiclePresent d then PRESENCE_DEBOUNCE_MS else ABSENCE_DEBOUNCE_MS) := by
    rw [hp, if_neg (by simp)]
    unfold ABSENCE_DEBOUNCE_MS at ht ⊢
    omega
  simp only [updateSensor]
  rw [if_pos hneq, if_pos htime, if_neg (by simp [hp]), if_pos hw]
  simp [hp]

/-- Unfolding one sample of `runSensor`. -/
lemma runSensor_cons (s : SensorState) (c : ℕ) (x : ℤ × ℕ)
    (l : List (ℤ × ℕ)) :
    runSensor s c (x :: l) =
      runSensor (updateSensor s x.1 x.2 c).1 (updateSensor s x.1 x.2 c).2 l :=
  rfl

/-- `runSensor` distributes over append. -/
lemma runSensor_append (s : SensorState) (c : ℕ) (l₁ l₂ : List (ℤ × ℕ)) :
    runSensor s c (l₁ ++ l₂) =
      runSensor (runSensor s c l₁).1 (runSensor s c l₁).2 l₂ := by
  simp [runSensor, List.foldl_append]

/-- A run of samples all matching the current debounced state changes
nothing at all. -/
lemma runSensor_all_matching (s : SensorState) (c : ℕ) (l : List (ℤ × ℕ))
    (h : ∀ p ∈ l, vehiclePresent p.1 = s.present) :
    runSensor s c l = (s, c) := by
  induction l with
  | nil => rfl
  | cons x rest ih =>
    rw [runSensor_cons,
      updateSensor_stable s x.1 x.2 c (h x (List.mem_cons_self _ _))]
    exact ih fun p hp => h p (List.mem_cons_of_mem _ hp)

/-- From a present-and-awaiting state, a run of absent samples — at least
one of them past the absence debounce — counts exactly one pass, however
many samples the run spans, and leaves the machine absent and no longer
awaiting departure. -/
lemma runSensor_absent_run (s : SensorState) (c : ℕ) (l : List (ℤ × ℕ))
    (hpr : s.present = true) (hw : s.waitingForAbsence = true)
    (habs : ∀ p ∈ l, vehiclePresent p.1 = false)
    (hdep : ∃ p ∈ l, s.lastChange + ABSENCE_DEBOUNCE_MS ≤ p.2) :
    (runSensor s c l).2 = c + 1 ∧
    (runSensor s c l).1.present = false ∧
    (runSensor s c l).1.waitingForAbsence = false := by
  induction l generalizing s c with
  | nil => simp at hdep
  | cons x rest ih =>
    have hx : vehiclePresent x.1 = false := habs x (List.mem_cons_self _ _)
    have habs' : ∀ p ∈ rest, vehiclePresent p.1 = false :=
      fun p hp => habs p (List.mem_cons_of_mem _ hp)
    by_cases hts : s.lastChange + ABSENCE_DEBOUNCE_MS ≤ x.2
    · rw [runSensor_cons, updateSensor_depart s x.1 x.2 c hx hpr hw hts]
      rw [runSensor_all_matching _ _ rest (by simpa using habs')]
      exact ⟨rfl, rfl, rfl⟩
    · have hrej : updateSensor s x.1 x.2 c = (s, c) := by
        refine updateSensor_reject s x.1 x.2 c (by rw [hx, hpr]; simp) ?_
        rw [hx, if_neg (by simp)]
        unfold ABSENCE_DEBOUNCE_MS at hts ⊢
        omega
      rw [runSensor_cons, hrej]
      refine ih s c hpr hw habs' ?_
      obtain ⟨p, hp, hpt⟩ := hdep
      rcases List.mem_cons.mp hp with rfl | hmem
      · exact absurd hpt hts
      · exact ⟨p, hmem, hpt⟩

/-! ## C8: one presence episode counts exactly one pass -/

/-- C8: starting from a sensor that is debounced-absent and not awaiting a
departure, one presence episode — a present sample accepted after the
presence debounce, any number of further present samples, then a run of
absent samples at least one of which lies past the absence debounce —
increments the road's counter by exactly one, regardless of how many
samples either run spans, and leaves `waitingForAbsence` cleared; and the
accepted present→absent transition itself is the single counting step. -/
theorem c8_no_double_counting (s : SensorState) (c : ℕ) (d1 : ℤ) (t1 : ℕ)
    (pres absl : List (ℤ × ℕ))
    (hnp : s.present = false) (_hnw : s.waitingForAbsence = false)
    (hd1 : vehiclePresent d1 = true)
    (ht1 : s.lastChange + PRESENCE_DEBOUNCE_MS ≤ t1)
    (hpres : ∀ p ∈ pres, vehiclePresent p.1 = true)
    (habs : ∀ p ∈ absl, vehiclePresent p.1 = false)
    (hdep : ∃ p ∈ absl, t1 + ABSENCE_DEBOUNCE_MS ≤ p.2) :
    (runSensor s c (((d1, t1) :: pres) ++ absl)).2 = c + 1 ∧
    (runSensor s c (((d1, t1) :: pres) ++ absl)).1.present = false ∧
    (runSensor s c (((d1, t1) :: pres) ++ absl)).1.waitingForAbsence =
      false := by
  have harr := updateSensor_arrive s d1 t1 c hd1 hnp ht1
  have hmid : runSensor s c ((d1, t1) :: pres) =
      ({ present := true, lastChange := t1, waitingForAbsence := true }, c) := by
    rw [runSensor_cons]
    simp only [harr]
    exact runSensor_all_matching _ c pres (by simpa using hpres)
  rw [List.cons_append, runSensor_cons]
  simp only [harr]
  rw [runSensor_append]
  have hmid' : runSensor
      { present := true, lastChange := t1, waitingForAbsence := true } c pres =
      ({ present := true, lastChange := t1, waitingForAbsence := true }, c) :=
    runSensor_all_matching _ c pres (by simpa using hpres)
  rw [hmid']
  exact runSensor_absent_run _ c absl rfl rfl habs hdep

/-- Witness for `c8_no_double_counting`: a vehicle seen at 30 cm from time
100 over three polls, then gone (one timeout read, one far read) — the
counter goes from 0 to exactly 1. -/
theorem c8_no_double_counting_witness :
    (runSensor {} 0 ((((30 : ℤ), (100 : ℕ)) ::
      [((25 : ℤ), (160 : ℕ)), ((10 : ℤ), (220 : ℕ))]) ++
      [((-1 : ℤ), (300 : ℕ)), ((500 : ℤ), (400 : ℕ))])).2 = 0 + 1 ∧
    (runSensor {} 0 ((((30 : ℤ), (100 : ℕ)) ::
      [((25 : ℤ), (160 : ℕ)), ((10 : ℤ), (220 : ℕ))]) ++
      [((-1 : ℤ), (300 : ℕ)), ((500 : ℤ), (400 : ℕ))])).1.present = false ∧
    (runSensor {} 0 ((((30 : ℤ), (100 : ℕ)) ::
      [((25 : ℤ), (160 : ℕ)), ((10 : ℤ), (220 : ℕ))]) ++
      [((-1 : ℤ), (300 : ℕ)), ((500 : ℤ), (400 : ℕ))])).1.waitingForAbsence =
      false :=
  c8_no_double_counting {} 0 30 100
    [((25 : ℤ), (160 : ℕ)), ((10 : ℤ), (220 : ℕ))]
    [((-1 : ℤ), (300 : ℕ)), ((500 : ℤ), (400 : ℕ))]
    rfl rfl (by decide) (by decide) (by decide) (by decide)
    ⟨((500 : ℤ), (400 : ℕ)), by decide, by decide⟩

/-! ## C9: a sensor timeout reads as absence -/

/-- C9: a timed-out measurement (`pulseIn` returned 0) yields the sentinel
−1, whose computed presence is false — a timeout is never "present", and
no non-positive sentinel ever is; fed to the debounce machine in the
absent state it changes nothing; and no re-read happens before the next
scheduled poll: a counting tick before `SENSOR_POLL_MS` has elapsed (and
before the window ends, with no emergency signal) leaves the whole state
untouched. -/
theorem c9_timeout_is_absence (st : SysState) (inp : TickInput) :
    measureDistanceCM 0 = -1 ∧
    vehiclePresent (measureDistanceCM 0) = false ∧
    (∀ d : ℤ, d ≤ 0 → vehiclePresent d = false) ∧
    (∀ (s : SensorState) (t c : ℕ), s.present = false →
      updateSensor s (measureDistanceCM 0) t c = (s, c)) ∧
    (inp.emerButtonA = false → inp.emerButtonB = false →
      st.sysState = SystemState.STATE_COUNTING →
      inp.now - st.lastSensorPoll < SENSOR_POLL_MS →
      inp.now - st.cycleStartTime < CYCLE_TOTAL_MS →
      tick st inp = st) := by
  refine ⟨rfl, rfl, ?_, ?_, ?_⟩
  · intro d hd
    simp [vehiclePresent]
    intro h
    omega
  · intro s t c hs
    exact updateSensor_stable s _ t c (by rw [hs]; rfl)
  · intro hA hB hs hpoll hwin
    rw [tick_counting st inp hA hB hs]
    simp only [countingStep]
    rw [if_neg (show ¬ (inp.now - st.lastSensorPoll ≥ SENSOR_POLL_MS) from
      by omega)]
    rw [if_neg (show ¬ (inp.now - st.cycleStartTime ≥ CYCLE_TOTAL_MS) from
      by omega)]

/-- Witness for `c9_timeout_is_absence`: a timeout read against a fresh
sensor at time 500 changes nothing, and a quiet tick 50 ms after the last
poll re-reads nothing — the state is untouched. -/
theorem c9_timeout_is_absence_witness :
    vehiclePresent (measureDistanceCM 0) = false ∧
    updateSensor {} (measureDistanceCM 0) 500 0 = ({}, 0) ∧
    tick { initState with lastSensorPoll := 100 } (quietAt 150) =
      { initState with lastSensorPoll := 100 } := by
  have h := c9_timeout_is_absence { initState with lastSensorPoll := 100 }
    (quietAt 150)
  exact ⟨h.2.1, h.2.2.2.1 {} 500 0 rfl,
    h.2.2.2.2 rfl rfl rfl (by decide) (by decide)⟩

end TrafficSystem
